import Mathlib

/-!
The ip-visit-counter service: the `/count` handler and its start-up.

A shallow embedding of `ip-visit-counter/main.go`.

* The process-wide variables (`ResponseString`, `IpInfoAddress`, `SqsQueueUrl`) are a
  record `Globals` that `main` fills in before serving.
* The handler `getCount` is a function from the gin context, the results the
  external calls give for this request (`Env`) and the counter store, to the store
  afterwards, the list of external calls it made (`Event`) and its `Outcome`:
  an HTTP response, or the end of the process (`log.Fatalf`).
* The counter store is an external server; it is a map from key to an integer with
  an optional expiry instant, with `INCR` and `EXPIRE` as its two commands.
* Machine integers are `Int` with the truncation of `int16(...)` written out.
-/

namespace IpVisitCounter

/-! ## Constants and process-wide variables -/

/-- Go `time.Second` in nanoseconds, the unit of `time.Duration`. -/
def Second : Nat := 1000000000

/-- Source: `const RedisKeyTtl = 120 * time.Second`. -/
def RedisKeyTtl : Nat := 120 * Second

/-- Source: `var RedisKey = "ip-visit-counter-"` (never assigned again). -/
def RedisKey : String := "ip-visit-counter-"

/-- The package variables that `main` and `loadConfig` assign before the router runs. -/
structure Globals where
  ResponseString : String
  IpInfoAddress : String
  SqsQueueUrl : String
  deriving DecidableEq, Repr

/-- Source: `type Config struct`; `Port` is an `int16`, kept in its range by `int16`. -/
structure Config where
  Port : Int
  RedisAddress : String
  ResponseFile : String
  KafkaAddress : String
  KafkaTopic : String
  SqsQueueName : String
  deriving DecidableEq, Repr

/-- Source: `type IpMessage struct`. -/
structure IpMessage where
  Ip : String
  deriving DecidableEq, Repr

/-- Source: `type IpInfo struct` (field `Info` is the JSON member `name`). -/
structure IpInfo where
  Ip : String
  Info : String
  deriving DecidableEq, Repr

/-! ## Integer conversion and printing -/

/-- Go conversion `int16(x)` of an `int`: the low 16 bits, read in two's complement. -/
def int16 (x : Int) : Int :=
  let low := x % 65536
  if low < 32768 then low else low - 65536

/-- The character of one decimal digit. -/
def digitChar (d : Nat) : Char := Char.ofNat (48 + d)

/-- Decimal digits of `n`, most significant first; `fuel` bounds the number of digits. -/
def decDigits : Nat → Nat → List Char
  | 0, _ => []
  | fuel + 1, n =>
    if n < 10 then [digitChar n] else decDigits fuel (n / 10) ++ [digitChar (n % 10)]

/-- Decimal rendering of a natural number. -/
def formatNat (n : Nat) : String := String.mk (decDigits (n + 1) n)

/-- Go `fmt.Sprint` of a signed integer: decimal, with a leading minus sign when negative. -/
def Sprint (i : Int) : String :=
  if i < 0 then String.mk (Char.ofNat 45 :: decDigits ((-i).toNat + 1) (-i).toNat)
  else formatNat i.toNat

/-! ## Configuration and start-up -/

/-- What viper returns for each bound environment key: `GetInt("port")` is a Go `int`. -/
structure Viper where
  port : Int
  redisaddress : String
  responsefile : String
  kafkaaddress : String
  kafkatopic : String
  ipinfoaddress : String
  sqsqueuename : String

/-- Source: `loadConfig`; the second component is the value assigned to `IpInfoAddress`. -/
def loadConfig (v : Viper) : Config × String :=
  ({ Port := int16 v.port
     RedisAddress := v.redisaddress
     ResponseFile := v.responsefile
     KafkaAddress := v.kafkaaddress
     KafkaTopic := v.kafkatopic
     SqsQueueName := v.sqsqueuename }, v.ipinfoaddress)

/-- The argument of `router.Run` in `main`: `"0.0.0.0:" + fmt.Sprint(config.Port)`. -/
def listenAddress (config : Config) : String := "0.0.0.0:" ++ Sprint config.Port

/-- The surroundings of `main`: configuration, the file system and the set-up calls. -/
structure Startup where
  viper : Viper
  /-- Result of `os.ReadFile`; `none` is an error. -/
  readFile : String → Option String
  /-- Whether `RedisClient.Ping` succeeds in `SetupRedis`. -/
  pingOk : Bool
  /-- Whether `config.LoadDefaultConfig` succeeds in `SetupSqs`. -/
  sdkConfigOk : Bool
  /-- Result of `sqsClient.GetQueueUrl`; `none` is an error. -/
  queueUrl : String → Option String

/-- How `main` ends up: stopped before serving, or serving on an address. -/
inductive Boot where
  | fatal
  | panicked
  | listening (g : Globals) (addr : String)
  deriving DecidableEq, Repr

/-- Source: `main`, up to `router.Run`. -/
def main (st : Startup) : Boot :=
  let config := (loadConfig st.viper).1
  let ipInfoAddress := (loadConfig st.viper).2
  match st.readFile config.ResponseFile with
  | none => Boot.fatal
  | some fileContent =>
    if st.pingOk = false then Boot.panicked
    else if st.sdkConfigOk = false then Boot.fatal
    else
      match st.queueUrl config.SqsQueueName with
      | none => Boot.fatal
      | some url =>
        Boot.listening
          { ResponseString := fileContent, IpInfoAddress := ipInfoAddress, SqsQueueUrl := url }
          (listenAddress config)

/-! ## The counter store -/

/-- One key of the counter store: its integer value and the instant it expires, if any. -/
structure Entry where
  value : Int
  expireAt : Option Nat
  deriving DecidableEq, Repr

/-- Modelled from the spec: the counter store is an external cache server, absent from the
repository; it is a map from key to integer with atomic increment and a per-key expiry. -/
abbrev Store := String → Option Entry

/-- Modelled from the spec: a key with a time-to-live is present strictly before the instant
it expires, and evicted from that instant on. -/
def Entry.live (e : Entry) (now : Nat) : Bool :=
  match e.expireAt with
  | none => true
  | some t => decide (now < t)

/-- The entry the store serves for `key` at instant `now`: none once it has expired. -/
def Store.find (s : Store) (now : Nat) (key : String) : Option Entry :=
  match s key with
  | some e => if e.live now then some e else none
  | none => none

/-- The store with `key` bound to `e`. -/
def Store.set (s : Store) (key : String) (e : Entry) : Store :=
  fun k => if k = key then some e else s k

/-- The integer the store holds for `key` at `now`; a missing key counts as 0. -/
def Store.valueAt (s : Store) (now : Nat) (key : String) : Int :=
  match s.find now key with
  | some e => e.value
  | none => 0

/-- Modelled from the spec: `increment(key) -> integer`. A present key is incremented and
keeps its expiry; a missing or expired key is created with value 1 and no expiry. -/
def redisIncr (s : Store) (now : Nat) (key : String) : Store × Int :=
  match s.find now key with
  | some e => (s.set key { e with value := e.value + 1 }, e.value + 1)
  | none => (s.set key { value := 1, expireAt := none }, 1)

/-- Modelled from the spec: `set_expiry(key, ttl)`. The expiry of a present key is set, or
reset, to `ttl` after `now`. -/
def redisExpire (s : Store) (now : Nat) (key : String) (ttl : Nat) : Store :=
  match s.find now key with
  | some e => s.set key { e with expireAt := some (now + ttl) }
  | none => s

/-! ## The gin context, the outbound calls and the response -/

/-- A value stored under a key of the gin context (`any` in Go). -/
inductive KeyValue where
  | str (s : String)
  | other
  deriving DecidableEq, Repr

/-- The parts of `*gin.Context` that `getCount` and `SendSqsMessage` use. Header names are
compared as written in the source (Go canonicalises them on both sides). -/
structure Context where
  /-- Result of `c.ClientIP()`. -/
  clientIP : String
  /-- Inbound request headers. -/
  header : List (String × String)
  /-- The per-request key store `c.Keys`. -/
  keys : List (String × KeyValue)
  deriving DecidableEq, Repr

/-- Source: `c.GetHeader(name)`: the header value, or the empty string when absent. -/
def Context.GetHeader (c : Context) (name : String) : String :=
  match c.header.lookup name with
  | some v => v
  | none => ""

/-- Source: `c.Set(key, value)`. -/
def Context.Set (c : Context) (key : String) (v : KeyValue) : Context :=
  { c with keys := (key, v) :: c.keys }

/-- Source: `c.Get(key)`; `none` stands for `exists == false`. -/
def Context.Get (c : Context) (key : String) : Option KeyValue :=
  c.keys.lookup key

/-- The context gin hands to the handler chain for a new request: no keys set. -/
def newContext (clientIP : String) (header : List (String × String)) : Context :=
  { clientIP := clientIP, header := header, keys := [] }

/-- Source: `types.MessageAttributeValue`, with the two fields the code fills in. -/
structure MessageAttributeValue where
  DataType : String
  StringValue : String
  deriving DecidableEq, Repr

/-- Source: `sqs.SendMessageInput`. The body is the JSON encoding of the `IpMessage`;
`MessageAttributes = none` is the nil map. -/
structure SendMessageInput where
  QueueUrl : String
  MessageBody : IpMessage
  MessageAttributes : Option (List (String × MessageAttributeValue))
  deriving DecidableEq, Repr

/-- The outbound lookup request: method, the parsed base address, the path elements joined
onto it by `JoinPath`, and the headers set on it. -/
structure LookupRequest where
  method : String
  base : String
  path : List String
  header : List (String × String)
  deriving DecidableEq, Repr

/-- One external call made while handling a request, with the result it gave. -/
inductive Event where
  | incr (key : String) (result : Option Int)
  | expire (key : String) (ttl : Nat) (ok : Bool)
  | sendMessage (input : SendMessageInput) (ok : Bool)
  | writeMessages (value : IpMessage) (ok : Bool)
  | urlParse (raw : String) (ok : Bool)
  | newRequest (method : String) (base : String) (path : List String) (ok : Bool)
  | httpDo (req : LookupRequest) (ok : Bool)
  | decode (result : Option (Option IpInfo))
  deriving DecidableEq, Repr

/-- A value of a `gin.H` map as the handler builds it. -/
inductive HValue where
  | str (s : String)
  | int (n : Int)
  | info (p : Option IpInfo)
  deriving DecidableEq, Repr

/-- Source: `c.JSON(status, gin.H ...)`. -/
structure Response where
  status : Nat
  body : List (String × HValue)
  deriving DecidableEq, Repr

/-- How the handling of one request ends: a response, or `log.Fatalf` ends the process. -/
inductive Outcome where
  | response (r : Response)
  | fatal
  deriving DecidableEq, Repr

/-- Source: `c.JSON(500, gin.H ("error": "Internal server error"))`. -/
def internalServerError : Outcome :=
  Outcome.response { status := 500, body := [("error", HValue.str "Internal server error")] }

/-- The results the external systems give during one request. -/
structure Env where
  /-- The store's clock when the request's commands reach it, in nanoseconds. -/
  now : Nat
  /-- `RedisClient.Incr(...).Result()` returns an error (overflow included). -/
  incrErr : Bool
  /-- The `Expire` command fails. -/
  expireErr : Bool
  /-- `sqsClient.SendMessage` returns an error. -/
  sendMessageErr : Bool
  /-- `KafkaWriter.WriteMessages` returns an error. -/
  writeMessagesErr : Bool
  /-- `url.Parse` rejects the given address. -/
  urlParseErr : String → Bool
  /-- `http.NewRequestWithContext` returns an error. -/
  newRequestErr : Bool
  /-- `http.DefaultClient.Do` returns an error. -/
  doErr : Bool
  /-- Result of decoding the lookup response body into `*IpInfo`: `none` is an error,
  `some none` the JSON value null. -/
  decoded : Option (Option IpInfo)

/-- What one run of a handler leaves behind. -/
structure Run where
  store : Store
  events : List Event
  outcome : Outcome

/-! ## The handlers -/

/-- Source: `SendSqsMessage`, up to the `SendMessage` call: the input it builds. -/
def sendMessageInput (g : Globals) (c : Context) (message : IpMessage) : SendMessageInput :=
  let messageAttributes : Option (List (String × MessageAttributeValue)) :=
    match c.Get "x-pg-tenant" with
    | some (KeyValue.str tenantStr) =>
      some [("x-pg-tenant", { DataType := "String", StringValue := tenantStr })]
    | _ => none
  { QueueUrl := g.SqsQueueUrl, MessageBody := message, MessageAttributes := messageAttributes }

/-- Source: `SendSqsMessage`: the call made, and whether the function returns
(`false`: `log.Fatalf` ended the process). The SDK gives a message id on success. -/
def SendSqsMessage (g : Globals) (c : Context) (env : Env) (message : IpMessage) :
    Event × Bool :=
  (Event.sendMessage (sendMessageInput g c message) (!env.sendMessageErr), !env.sendMessageErr)

/-- Source: `getCount`. -/
def getCount (g : Globals) (c0 : Context) (env : Env) (store : Store) : Run :=
  let ip := c0.clientIP
  let key := RedisKey ++ ip
  let tenant := c0.GetHeader "x-pg-tenant"
  let c := if tenant ≠ "" then c0.Set "x-pg-tenant" (KeyValue.str tenant) else c0
  if env.incrErr then
    { store := store, events := [Event.incr key none], outcome := internalServerError }
  else
    let count := (redisIncr store env.now key).2
    let store1 := (redisIncr store env.now key).1
    let store2 := if env.expireErr then store1 else redisExpire store1 env.now key RedisKeyTtl
    let message : IpMessage := { Ip := ip }
    let ev1 := [Event.incr key (some count), Event.expire key RedisKeyTtl (!env.expireErr)]
    let ev2 := ev1 ++ [(SendSqsMessage g c env message).1]
    if (SendSqsMessage g c env message).2 = false then
      { store := store2, events := ev2, outcome := Outcome.fatal }
    else
      let ev3 := ev2 ++ [Event.writeMessages message (!env.writeMessagesErr)]
      if env.writeMessagesErr then
        { store := store2, events := ev3, outcome := internalServerError }
      else
        let ev4 := ev3 ++ [Event.urlParse g.IpInfoAddress (!env.urlParseErr g.IpInfoAddress)]
        if env.urlParseErr g.IpInfoAddress then
          { store := store2, events := ev4, outcome := internalServerError }
        else
          let ev5 := ev4 ++ [Event.newRequest "GET" g.IpInfoAddress ["ip", ip] (!env.newRequestErr)]
          if env.newRequestErr then
            { store := store2, events := ev5, outcome := internalServerError }
          else
            let req : LookupRequest :=
              { method := "GET", base := g.IpInfoAddress, path := ["ip", ip],
                header := [("x-pg-tenant", tenant)] }
            let ev6 := ev5 ++ [Event.httpDo req (!env.doErr)]
            if env.doErr then
              { store := store2, events := ev6, outcome := internalServerError }
            else
              let ev7 := ev6 ++ [Event.decode env.decoded]
              match env.decoded with
              | none => { store := store2, events := ev7, outcome := internalServerError }
              | some ipInfo =>
                { store := store2, events := ev7,
                  outcome := Outcome.response
                    { status := 200,
                      body := [("count", HValue.int count),
                               ("text", HValue.str (g.ResponseString ++ "hi from")),
                               ("info", HValue.info ipInfo)] } }

/-- The handler as the router calls it: on the fresh context of a new request. -/
def handleCount (g : Globals) (clientIP : String) (header : List (String × String))
    (env : Env) (store : Store) : Run :=
  getCount g (newContext clientIP header) env store

/-- One `/count` request as it reaches the process: its context and what the external
systems answer while it is handled. -/
structure Call where
  ctx : Context
  env : Env

/-- The process serving `/count` requests one after another: the responses it sends. It
stops at the first request that ends it. -/
def serve (g : Globals) : Store → List Call → List Response
  | _, [] => []
  | s, call :: rest =>
    match (getCount g call.ctx call.env s).outcome with
    | Outcome.fatal => []
    | Outcome.response r => r :: serve g (getCount g call.ctx call.env s).store rest

/-- The `count` member of a 200 response, if the outcome is one. -/
def returnedCount : Outcome → Option Int
  | Outcome.response { status := 200, body := ("count", HValue.int n) :: _ } => some n
  | _ => none

/-- An environment in which every external call succeeds, with the given clock and lookup
result. -/
def Env.ok (now : Nat) (info : Option IpInfo) : Env :=
  { now := now, incrErr := false, expireErr := false, sendMessageErr := false,
    writeMessagesErr := false, urlParseErr := fun _ => false, newRequestErr := false,
    doErr := false, decoded := some info }

/-- The store with no keys. -/
def Store.empty : Store := fun _ => none

/-- The number a list of decimal digit characters denotes. -/
def digitsValue (cs : List Char) : Nat :=
  cs.foldl (fun acc c => acc * 10 + (c.toNat - 48)) 0

/-! ## Sample data -/

/-- A configuration with the given port and response file. -/
def sampleViper (port : Int) : Viper :=
  { port := port, redisaddress := "redis:6379", responsefile := "response.txt",
    kafkaaddress := "kafka:9092", kafkatopic := "visits",
    ipinfoaddress := "http://ip-info:8080", sqsqueuename := "visits" }

/-- A start-up in which every step succeeds and the response file holds `"hello "`. -/
def sampleStartup (port : Int) : Startup :=
  { viper := sampleViper port, readFile := fun _ => some "hello ", pingOk := true,
    sdkConfigOk := true, queueUrl := fun _ => some "http://sqs/visits" }

/-- The globals `main` leaves after `sampleStartup`. -/
def sampleGlobals : Globals :=
  { ResponseString := "hello ", IpInfoAddress := "http://ip-info:8080",
    SqsQueueUrl := "http://sqs/visits" }

/-- A lookup result. -/
def sampleInfo : Option IpInfo := some { Ip := "10.0.0.1", Info := "alice" }

/-- A request from 10.0.0.1 without a tenant header. -/
def ctxA : Context := newContext "10.0.0.1" []

/-- A request from 10.0.0.2 without a tenant header. -/
def ctxB : Context := newContext "10.0.0.2" []

/-- An environment where only the set-expiry command fails. -/
def envExpireFails : Env := { Env.ok 0 sampleInfo with expireErr := true }

/-- An environment where the queue publish fails (and the stream publish would, too). -/
def envQueueFails : Env :=
  { Env.ok 0 sampleInfo with sendMessageErr := true, writeMessagesErr := true }

/-- An environment where the stream publish fails. -/
def envStreamFails : Env := { Env.ok 0 sampleInfo with writeMessagesErr := true }

/-- An environment where the lookup call fails. -/
def envLookupFails : Env := { Env.ok 0 sampleInfo with doErr := true }

/-- A request from 10.0.0.1 carrying the tenant header `t1`. -/
def tenantHeader : List (String × String) := [("x-pg-tenant", "t1")]

/-- The queue message `getCount` builds for 10.0.0.1 with tenant `t1`. -/
def tenantInput : SendMessageInput :=
  { QueueUrl := "http://sqs/visits", MessageBody := { Ip := "10.0.0.1" },
    MessageAttributes := some [("x-pg-tenant", { DataType := "String", StringValue := "t1" })] }

/-- The lookup request `getCount` builds for 10.0.0.1 with tenant `t1`. -/
def tenantLookup : LookupRequest :=
  { method := "GET", base := "http://ip-info:8080", path := ["ip", "10.0.0.1"],
    header := [("x-pg-tenant", "t1")] }

/-- The queue message `getCount` builds for 10.0.0.1 without a tenant. -/
def plainInput : SendMessageInput :=
  { QueueUrl := "http://sqs/visits", MessageBody := { Ip := "10.0.0.1" },
    MessageAttributes := none }

/-- The lookup request `getCount` builds for 10.0.0.1 without a tenant. -/
def plainLookup : LookupRequest :=
  { method := "GET", base := "http://ip-info:8080", path := ["ip", "10.0.0.1"],
    header := [("x-pg-tenant", "")] }

/-- The store after one successful call from 10.0.0.1 at instant 0. -/
def storeAfterFirst : Store := (getCount sampleGlobals ctxA (Env.ok 0 none) Store.empty).store

/-! ## Integer conversion and printing: lemmas -/

theorem int16_eq (x : Int) : int16 x = (x + 32768) % 65536 - 32768 := by
  unfold int16
  simp only
  split <;> omega

theorem string_append_left_cancel (s a b : String) (h : s ++ a = s ++ b) : a = b := by
  have h1 := congrArg String.data h
  simp only [String.data_append] at h1
  exact String.ext (List.append_cancel_left h1)

theorem digitChar_toNat (d : Nat) (h : d < 10) : (digitChar d).toNat - 48 = d := by
  interval_cases d <;> decide

theorem digitChar_ne_minus (d : Nat) (h : d < 10) : digitChar d ≠ Char.ofNat 45 := by
  interval_cases d <;> decide

theorem digitsValue_decDigits (fuel : Nat) : ∀ n, n < fuel → digitsValue (decDigits fuel n) = n := by
  induction fuel with
  | zero => intro n h; omega
  | succ f ih =>
    intro n h
    unfold decDigits
    split
    · rename_i h10
      simp [digitsValue, digitChar_toNat n h10]
    · rename_i h10
      have hlt : n / 10 < f := by omega
      have := ih (n / 10) hlt
      simp only [digitsValue, List.foldl_append, List.foldl_cons, List.foldl_nil] at this ⊢
      rw [this, digitChar_toNat (n % 10) (by omega)]
      omega

theorem minus_not_mem_decDigits (fuel : Nat) : ∀ n, Char.ofNat 45 ∉ decDigits fuel n := by
  induction fuel with
  | zero => intro n; simp [decDigits]
  | succ f ih =>
    intro n
    unfold decDigits
    split
    · rename_i h10
      simp only [List.mem_singleton]
      exact fun h => digitChar_ne_minus n h10 h.symm
    · simp only [List.mem_append, List.mem_singleton, not_or]
      exact ⟨ih _, fun h => digitChar_ne_minus (n % 10) (by omega) h.symm⟩

theorem Sprint_injective (i j : Int) (h : Sprint i = Sprint j) : i = j := by
  unfold Sprint formatNat at h
  have key : ∀ n, digitsValue (decDigits (n + 1) n) = n := fun n => digitsValue_decDigits _ n (by omega)
  split at h <;> split at h
  · have h1 := congrArg String.data h
    simp only [List.cons.injEq, true_and] at h1
    have h2 := congrArg digitsValue h1
    rw [key, key] at h2
    omega
  · exfalso
    have h1 := congrArg String.data h
    simp only at h1
    have : Char.ofNat 45 ∈ decDigits (j.toNat + 1) j.toNat := by rw [← h1]; simp
    exact minus_not_mem_decDigits _ _ this
  · exfalso
    have h1 := congrArg String.data h
    simp only at h1
    have : Char.ofNat 45 ∈ decDigits (i.toNat + 1) i.toNat := by rw [h1]; simp
    exact minus_not_mem_decDigits _ _ this
  · have h1 := congrArg String.data h
    simp only at h1
    have h2 := congrArg digitsValue h1
    rw [key, key] at h2
    omega


/-! ## The counter key and the store commands -/

theorem redisKey_injective (a b : String) (h : RedisKey ++ a = RedisKey ++ b) : a = b :=
  string_append_left_cancel RedisKey a b h

theorem redisIncr_other (s : Store) (now : Nat) (key k : String) (h : k ≠ key) :
    (redisIncr s now key).1 k = s k := by
  unfold redisIncr
  split <;> simp [Store.set, h]

theorem redisExpire_other (s : Store) (now : Nat) (key k : String) (ttl : Nat) (h : k ≠ key) :
    (redisExpire s now key ttl) k = s k := by
  unfold redisExpire
  cases s.find now key <;> simp [Store.set, h]

theorem redisIncr_value (s : Store) (now : Nat) (key : String) :
    (redisIncr s now key).2 = s.valueAt now key + 1 := by
  unfold redisIncr Store.valueAt
  split <;> simp_all

theorem redisIncr_find (s : Store) (now : Nat) (key : String) :
    ∃ e, (redisIncr s now key).1.find now key = some e ∧ (redisIncr s now key).1 key = some e
      ∧ e.value = s.valueAt now key + 1 := by
  unfold redisIncr Store.valueAt
  cases h : s.find now key with
  | none => simp [Store.find, Store.set, Entry.live]
  | some e =>
    have hl : e.live now = true := by
      unfold Store.find at h
      split at h
      · split at h
        · simp_all
        · simp at h
      · simp at h
    refine ⟨{ e with value := e.value + 1 }, ?_, ?_, ?_⟩
    · simp only [Store.find, Store.set, Entry.live] at hl ⊢
      simp [hl]
    · simp [Store.set]
    · simp

theorem redisIncr_expire_entry (s : Store) (now : Nat) (key : String) (ttl : Nat) :
    (redisExpire (redisIncr s now key).1 now key ttl) key
      = some { value := s.valueAt now key + 1, expireAt := some (now + ttl) } := by
  obtain ⟨e, h1, _, h3⟩ := redisIncr_find s now key
  unfold redisExpire
  rw [h1]
  simp [Store.set, h3]

theorem valueAt_of_entry (s : Store) (now : Nat) (key : String) (n : Int) (t : Nat)
    (h : s key = some { value := n, expireAt := some t }) :
    s.valueAt now key = if now < t then n else 0 := by
  unfold Store.valueAt Store.find
  rw [h]
  by_cases hlt : now < t <;> simp [Entry.live, hlt]

theorem valueAt_redisIncr (s : Store) (now : Nat) (key : String) :
    (redisIncr s now key).1.valueAt now key = s.valueAt now key + 1 := by
  obtain ⟨e, h1, _, h3⟩ := redisIncr_find s now key
  unfold Store.valueAt at h3 ⊢
  rw [h1]
  exact h3

theorem valueAt_redisIncr_expire (s : Store) (now : Nat) (key : String) (ttl : Nat)
    (hpos : 0 < ttl) :
    (redisExpire (redisIncr s now key).1 now key ttl).valueAt now key
      = s.valueAt now key + 1 := by
  rw [valueAt_of_entry _ now key _ _ (redisIncr_expire_entry s now key ttl)]
  simp [hpos]


/-! ## The handler, path by path -/

theorem getCount_store (g : Globals) (c : Context) (env : Env) (s : Store) :
    (getCount g c env s).store =
      if env.incrErr then s
      else if env.expireErr then (redisIncr s env.now (RedisKey ++ c.clientIP)).1
      else redisExpire (redisIncr s env.now (RedisKey ++ c.clientIP)).1 env.now
        (RedisKey ++ c.clientIP) RedisKeyTtl := by
  obtain ⟨now, ie, ee, se, we, up, ne, de, dec⟩ := env
  cases ie <;> cases ee <;> cases se <;> cases we <;> cases hp : up g.IpInfoAddress <;>
    cases ne <;> cases de <;> cases dec <;> simp [getCount, SendSqsMessage, hp]

theorem getCount_outcome (g : Globals) (c : Context) (env : Env) (s : Store) :
    (getCount g c env s).outcome =
      if env.incrErr then internalServerError
      else if env.sendMessageErr then Outcome.fatal
      else if env.writeMessagesErr then internalServerError
      else if env.urlParseErr g.IpInfoAddress then internalServerError
      else if env.newRequestErr then internalServerError
      else if env.doErr then internalServerError
      else match env.decoded with
        | none => internalServerError
        | some ipInfo => Outcome.response
            { status := 200,
              body := [("count", HValue.int (redisIncr s env.now (RedisKey ++ c.clientIP)).2),
                       ("text", HValue.str (g.ResponseString ++ "hi from")),
                       ("info", HValue.info ipInfo)] } := by
  obtain ⟨now, ie, ee, se, we, up, ne, de, dec⟩ := env
  cases ie <;> cases ee <;> cases se <;> cases we <;> cases hp : up g.IpInfoAddress <;>
    cases ne <;> cases de <;> cases dec <;> simp [getCount, SendSqsMessage, hp]



theorem getCount_store_other (g : Globals) (c : Context) (env : Env) (s : Store) (k : String)
    (h : k ≠ RedisKey ++ c.clientIP) : (getCount g c env s).store k = s k := by
  rw [getCount_store]
  split
  · rfl
  · split
    · exact redisIncr_other s env.now _ k h
    · rw [redisExpire_other _ _ _ _ _ h]
      exact redisIncr_other s env.now _ k h

theorem RedisKeyTtl_pos : 0 < RedisKeyTtl := by decide

theorem getCount_all_ok (g : Globals) (c : Context) (env : Env) (s : Store)
    (info : Option IpInfo)
    (hok : env.incrErr = false ∧ env.sendMessageErr = false ∧ env.writeMessagesErr = false ∧
      env.urlParseErr g.IpInfoAddress = false ∧ env.newRequestErr = false ∧
      env.doErr = false ∧ env.decoded = some info) :
    (getCount g c env s).outcome = Outcome.response
      { status := 200,
        body := [("count", HValue.int (s.valueAt env.now (RedisKey ++ c.clientIP) + 1)),
                 ("text", HValue.str (g.ResponseString ++ "hi from")),
                 ("info", HValue.info info)] } := by
  obtain ⟨h1, h2, h3, h4, h5, h6, h7⟩ := hok
  rw [getCount_outcome, ← redisIncr_value]
  simp [h1, h2, h3, h4, h5, h6, h7]

theorem sendMessage_failed (g : Globals) (c : Context) (env : Env) (s : Store)
    (h : ∃ input, Event.sendMessage input false ∈ (getCount g c env s).events) :
    env.incrErr = false ∧ env.sendMessageErr = true := by
  obtain ⟨now, ie, ee, se, we, up, ne, de, dec⟩ := env
  cases ie <;> cases se <;> cases we <;> cases hp : up g.IpInfoAddress <;>
    cases ne <;> cases de <;> cases dec <;>
    simp [getCount, SendSqsMessage, hp] at h ⊢

theorem writeMessages_failed (g : Globals) (c : Context) (env : Env) (s : Store)
    (h : ∃ v, Event.writeMessages v false ∈ (getCount g c env s).events) :
    env.incrErr = false ∧ env.sendMessageErr = false ∧ env.writeMessagesErr = true := by
  obtain ⟨now, ie, ee, se, we, up, ne, de, dec⟩ := env
  cases ie <;> cases se <;> cases we <;> cases hp : up g.IpInfoAddress <;>
    cases ne <;> cases de <;> cases dec <;>
    simp [getCount, SendSqsMessage, hp] at h ⊢

theorem getCount_fatal_events (g : Globals) (c : Context) (env : Env) (s : Store)
    (hie : env.incrErr = false) (hse : env.sendMessageErr = true) :
    ∃ input, (getCount g c env s).events =
      [Event.incr (RedisKey ++ c.clientIP) (some (redisIncr s env.now (RedisKey ++ c.clientIP)).2),
       Event.expire (RedisKey ++ c.clientIP) RedisKeyTtl (!env.expireErr),
       Event.sendMessage input false] := by
  obtain ⟨now, ie, ee, se, we, up, ne, de, dec⟩ := env
  simp only at hie hse
  subst hie hse
  simp [getCount, SendSqsMessage]

theorem getCount_incr_event (g : Globals) (c : Context) (env : Env) (s : Store)
    (hie : env.incrErr = false) :
    Event.incr (RedisKey ++ c.clientIP) (some (redisIncr s env.now (RedisKey ++ c.clientIP)).2)
      ∈ (getCount g c env s).events := by
  obtain ⟨now, ie, ee, se, we, up, ne, de, dec⟩ := env
  simp only at hie
  subst hie
  cases se <;> cases we <;> cases hp : up g.IpInfoAddress <;>
    cases ne <;> cases de <;> cases dec <;> simp [getCount, SendSqsMessage, hp]

theorem getCount_valueAt (g : Globals) (c : Context) (env : Env) (s : Store)
    (hie : env.incrErr = false) :
    (getCount g c env s).store.valueAt env.now (RedisKey ++ c.clientIP)
      = s.valueAt env.now (RedisKey ++ c.clientIP) + 1 := by
  rw [getCount_store]
  simp only [hie, Bool.false_eq_true, if_false]
  split
  · exact valueAt_redisIncr s env.now _
  · exact valueAt_redisIncr_expire s env.now _ RedisKeyTtl RedisKeyTtl_pos

theorem main_listening (st : Startup) (g : Globals) (addr : String)
    (h : main st = Boot.listening g addr) :
    st.readFile st.viper.responsefile = some g.ResponseString ∧
      addr = listenAddress (loadConfig st.viper).1 := by
  unfold main at h
  simp only [loadConfig] at h
  cases hf : st.readFile st.viper.responsefile with
  | none => rw [hf] at h; simp at h
  | some content =>
    rw [hf] at h
    cases hq : st.queueUrl st.viper.sqsqueuename with
    | none => rw [hq] at h; simp at h; split_ifs at h
    | some url =>
      rw [hq] at h
      simp only at h
      split_ifs at h
      simp only [Boot.listening.injEq] at h
      obtain ⟨hg, ha⟩ := h
      subst hg
      exact ⟨rfl, by rw [← ha]; rfl⟩


/-! ## The claims -/

/-- C3: for addresses `a ≠ b` the counter keys differ; every store command `getCount`
issues for a call from `a` names the key of `a`; and the call leaves the entry (value and
expiry) stored under the key of `b` as it was. -/
theorem distinct_addresses_independent (a b : String) (hab : a ≠ b) :
    RedisKey ++ a ≠ RedisKey ++ b ∧
    ∀ (g : Globals) (c : Context) (env : Env) (s : Store), c.clientIP = a →
      (∀ k r, Event.incr k r ∈ (getCount g c env s).events → k = RedisKey ++ a) ∧
      (∀ k ttl ok, Event.expire k ttl ok ∈ (getCount g c env s).events → k = RedisKey ++ a) ∧
      (getCount g c env s).store (RedisKey ++ b) = s (RedisKey ++ b) := by
  have hkey : RedisKey ++ a ≠ RedisKey ++ b := fun h => hab (redisKey_injective a b h)
  refine ⟨hkey, ?_⟩
  intro g c env s hc
  subst hc
  refine ⟨?_, ?_, getCount_store_other g c env s _ (Ne.symm hkey)⟩
  · intro k r
    obtain ⟨now, ie, ee, se, we, up, ne, de, dec⟩ := env
    cases ie <;> cases se <;> cases we <;> cases hp : up g.IpInfoAddress <;>
      cases ne <;> cases de <;> cases dec <;>
      simp [getCount, SendSqsMessage, hp] <;> intro h _ <;> exact h
  · intro k ttl ok
    obtain ⟨now, ie, ee, se, we, up, ne, de, dec⟩ := env
    cases ie <;> cases se <;> cases we <;> cases hp : up g.IpInfoAddress <;>
      cases ne <;> cases de <;> cases dec <;>
      simp [getCount, SendSqsMessage, hp] <;> intro h _ _ <;> exact h


/-- Witness of C3: a call from 10.0.0.1 leaves the entry of 10.0.0.2 untouched. -/
theorem distinct_addresses_independent_witness :
    RedisKey ++ "10.0.0.1" ≠ RedisKey ++ "10.0.0.2" ∧
    (getCount sampleGlobals ctxA (Env.ok 7 none)
        (getCount sampleGlobals ctxB (Env.ok 0 none) Store.empty).store).store
          (RedisKey ++ "10.0.0.2")
      = (getCount sampleGlobals ctxB (Env.ok 0 none) Store.empty).store
          (RedisKey ++ "10.0.0.2") :=
  ⟨(distinct_addresses_independent "10.0.0.1" "10.0.0.2" (by decide)).1,
   ((distinct_addresses_independent "10.0.0.1" "10.0.0.2" (by decide)).2 sampleGlobals ctxA
      (Env.ok 7 none) (getCount sampleGlobals ctxB (Env.ok 0 none) Store.empty).store rfl).2.2⟩

/-- C4: when the process was started with a response file holding `content`, and on a
request the increment, the queue publish, the stream publish and every step of the lookup
succeed, `getCount` answers 200 with `count` the value the store's increment command
returns for the caller's key (the value served before the request plus 1, which the store
holds afterwards), `text` equal to `content` followed directly by "hi from", and `info`
the decoded lookup result. -/
theorem success_response (st : Startup) (g : Globals) (addr content : String) (c : Context)
    (env : Env) (s : Store) (info : Option IpInfo)
    (hboot : main st = Boot.listening g addr)
    (hfile : st.readFile st.viper.responsefile = some content)
    (hok : env.incrErr = false ∧ env.sendMessageErr = false ∧ env.writeMessagesErr = false ∧
      env.urlParseErr g.IpInfoAddress = false ∧ env.newRequestErr = false ∧
      env.doErr = false ∧ env.decoded = some info) :
    (getCount g c env s).outcome = Outcome.response
      { status := 200,
        body := [("count", HValue.int (redisIncr s env.now (RedisKey ++ c.clientIP)).2),
                 ("text", HValue.str (content ++ "hi from")),
                 ("info", HValue.info info)] } ∧
    (redisIncr s env.now (RedisKey ++ c.clientIP)).2
      = s.valueAt env.now (RedisKey ++ c.clientIP) + 1 ∧
    (getCount g c env s).store.valueAt env.now (RedisKey ++ c.clientIP)
      = (redisIncr s env.now (RedisKey ++ c.clientIP)).2 ∧
    Event.incr (RedisKey ++ c.clientIP) (some (redisIncr s env.now (RedisKey ++ c.clientIP)).2)
      ∈ (getCount g c env s).events := by
  have hcontent : g.ResponseString = content := by
    have := (main_listening st g addr hboot).1
    rw [hfile] at this
    exact (Option.some.inj this).symm
  refine ⟨?_, redisIncr_value s env.now _, ?_, getCount_incr_event g c env s hok.1⟩
  · rw [getCount_all_ok g c env s info hok, hcontent, redisIncr_value]
  · rw [getCount_valueAt g c env s hok.1, redisIncr_value]

/-- Witness of C4: the second call of 10.0.0.1, with the file content "hello ", answers
200 with count 2, text "hello hi from" and the lookup result; the store holds 2. -/
theorem success_response_witness :
    (getCount sampleGlobals ctxA (Env.ok 5 sampleInfo) storeAfterFirst).outcome
      = Outcome.response
        { status := 200,
          body := [("count", HValue.int 2), ("text", HValue.str "hello hi from"),
                   ("info", HValue.info sampleInfo)] } ∧
    (getCount sampleGlobals ctxA (Env.ok 5 sampleInfo) storeAfterFirst).store.valueAt 5
      (RedisKey ++ "10.0.0.1") = 2 :=
  ⟨(success_response (sampleStartup 8080) sampleGlobals "0.0.0.0:8080" "hello " ctxA
      (Env.ok 5 sampleInfo) storeAfterFirst sampleInfo (by decide) rfl (by decide)).1.trans
      (by decide),
   (success_response (sampleStartup 8080) sampleGlobals "0.0.0.0:8080" "hello " ctxA
      (Env.ok 5 sampleInfo) storeAfterFirst sampleInfo (by decide) rfl (by decide)).2.2.1.trans
      (by decide)⟩

/-- C5: when, during a request, the increment returns an error, or the stream publish
returns an error, or parsing the configured lookup address returns an error, or the lookup
call returns an error, or decoding the lookup body returns an error, `getCount` answers
status 500 with the one body `error: Internal server error`, the same for each cause, and
the outcome carries no count. -/
theorem failure_is_generic_500 (g : Globals) (c : Context) (env : Env) (s : Store)
    (h : Event.incr (RedisKey ++ c.clientIP) none ∈ (getCount g c env s).events ∨
      (∃ v, Event.writeMessages v false ∈ (getCount g c env s).events) ∨
      Event.urlParse g.IpInfoAddress false ∈ (getCount g c env s).events ∨
      (∃ r, Event.httpDo r false ∈ (getCount g c env s).events) ∨
      Event.decode none ∈ (getCount g c env s).events) :
    (getCount g c env s).outcome = Outcome.response
      { status := 500, body := [("error", HValue.str "Internal server error")] } ∧
    returnedCount (getCount g c env s).outcome = none ∧
    ∀ r, (getCount g c env s).outcome = Outcome.response r → r.status ≠ 200 := by
  have hout : (getCount g c env s).outcome = internalServerError := by
    obtain ⟨now, ie, ee, se, we, up, ne, de, dec⟩ := env
    cases ie <;> cases se <;> cases we <;> cases hp : up g.IpInfoAddress <;>
      cases ne <;> cases de <;> cases dec <;>
      simp [getCount, SendSqsMessage, hp] at h ⊢
  refine ⟨hout, ?_, ?_⟩
  · rw [hout]; rfl
  · intro r hr
    rw [hout] at hr
    simp only [internalServerError, Outcome.response.injEq] at hr
    rw [← hr]
    decide

/-- Witness of C5: a failing lookup call gives the generic 500. -/
theorem failure_is_generic_500_witness :
    (getCount sampleGlobals ctxA envLookupFails Store.empty).outcome = Outcome.response
      { status := 500, body := [("error", HValue.str "Internal server error")] } :=
  (failure_is_generic_500 sampleGlobals ctxA envLookupFails Store.empty
    (Or.inr (Or.inr (Or.inr (Or.inl
      ⟨plainLookup, by decide⟩))))).1

/-- C6: when the increment of a request succeeded with result `n` and a later step (the
stream publish, or a step of the lookup) returned an error, the response is the generic
500 and the store still serves, for the caller's key, the value it served before the
request plus 1, which is `n`. -/
theorem increment_not_rolled_back (g : Globals) (c : Context) (env : Env) (s : Store)
    (n : Int)
    (hincr : Event.incr (RedisKey ++ c.clientIP) (some n) ∈ (getCount g c env s).events)
    (hfail : (∃ v, Event.writeMessages v false ∈ (getCount g c env s).events) ∨
      Event.urlParse g.IpInfoAddress false ∈ (getCount g c env s).events ∨
      (∃ m b p, Event.newRequest m b p false ∈ (getCount g c env s).events) ∨
      (∃ r, Event.httpDo r false ∈ (getCount g c env s).events) ∨
      Event.decode none ∈ (getCount g c env s).events) :
    (getCount g c env s).outcome = internalServerError ∧
    (getCount g c env s).store.valueAt env.now (RedisKey ++ c.clientIP)
      = s.valueAt env.now (RedisKey ++ c.clientIP) + 1 ∧
    n = s.valueAt env.now (RedisKey ++ c.clientIP) + 1 := by
  have hie : env.incrErr = false := by
    obtain ⟨now, ie, ee, se, we, up, ne, de, dec⟩ := env
    cases ie
    · rfl
    · simp [getCount] at hincr
  have hn : n = s.valueAt env.now (RedisKey ++ c.clientIP) + 1 := by
    rw [← redisIncr_value]
    obtain ⟨now, ie, ee, se, we, up, ne, de, dec⟩ := env
    simp only at hie
    subst hie
    cases se <;> cases we <;> cases hp : up g.IpInfoAddress <;>
      cases ne <;> cases de <;> cases dec <;>
      simp [getCount, SendSqsMessage, hp] at hincr ⊢ <;> exact hincr
  refine ⟨?_, ?_, hn⟩
  · obtain ⟨now, ie, ee, se, we, up, ne, de, dec⟩ := env
    simp only at hie
    subst hie
    cases se <;> cases we <;> cases hp : up g.IpInfoAddress <;>
      cases ne <;> cases de <;> cases dec <;>
      simp [getCount, SendSqsMessage, hp] at hfail ⊢
  · rw [getCount_store]
    simp only [hie, Bool.false_eq_true, if_false]
    split
    · exact valueAt_redisIncr s env.now _
    · exact valueAt_redisIncr_expire s env.now _ RedisKeyTtl RedisKeyTtl_pos

/-- Witness of C6: the stream publish fails on the second call from 10.0.0.1; the store
holds 2 for its key afterwards. -/
theorem increment_not_rolled_back_witness :
    (getCount sampleGlobals ctxA envStreamFails
        (getCount sampleGlobals ctxA (Env.ok 0 none) Store.empty).store).outcome
      = internalServerError ∧
    (getCount sampleGlobals ctxA envStreamFails
        (getCount sampleGlobals ctxA (Env.ok 0 none) Store.empty).store).store.valueAt
          envStreamFails.now (RedisKey ++ ctxA.clientIP)
      = (getCount sampleGlobals ctxA (Env.ok 0 none) Store.empty).store.valueAt
          envStreamFails.now (RedisKey ++ ctxA.clientIP) + 1 ∧
    (2 : Int) = (getCount sampleGlobals ctxA (Env.ok 0 none) Store.empty).store.valueAt
          envStreamFails.now (RedisKey ++ ctxA.clientIP) + 1 :=
  increment_not_rolled_back sampleGlobals ctxA envStreamFails
    (getCount sampleGlobals ctxA (Env.ok 0 none) Store.empty).store 2 (by decide)
    (Or.inl ⟨{ Ip := "10.0.0.1" }, by decide⟩)


/-- C7: for a request with inbound tenant header value `t` (empty when absent): every queue
message sent carries the single attribute `x-pg-tenant` with string value `t` when `t` is
non-empty and no attributes otherwise; every lookup request sent carries the header
`x-pg-tenant` with value `t`, also when `t` is empty; the queue message is sent once the
increment succeeds, and the lookup request once the steps before it succeed. -/
theorem tenant_tag_forwarded (g : Globals) (ip : String) (header : List (String × String))
    (env : Env) (s : Store) :
    (∀ input ok, Event.sendMessage input ok ∈ (handleCount g ip header env s).events →
      input.MessageAttributes =
        if (newContext ip header).GetHeader "x-pg-tenant" = "" then none
        else some [("x-pg-tenant",
          { DataType := "String",
            StringValue := (newContext ip header).GetHeader "x-pg-tenant" })]) ∧
    (∀ req ok, Event.httpDo req ok ∈ (handleCount g ip header env s).events →
      req.header = [("x-pg-tenant", (newContext ip header).GetHeader "x-pg-tenant")] ∧
      req.header.lookup "x-pg-tenant"
        = some ((newContext ip header).GetHeader "x-pg-tenant")) ∧
    (env.incrErr = false →
      ∃ input, Event.sendMessage input (!env.sendMessageErr)
        ∈ (handleCount g ip header env s).events) ∧
    (env.incrErr = false ∧ env.sendMessageErr = false ∧ env.writeMessagesErr = false ∧
        env.urlParseErr g.IpInfoAddress = false ∧ env.newRequestErr = false →
      ∃ req, Event.httpDo req (!env.doErr) ∈ (handleCount g ip header env s).events) := by
  obtain ⟨now, ie, ee, se, we, up, ne, de, dec⟩ := env
  refine ⟨?_, ?_, ?_, ?_⟩
  · intro input ok
    cases hl : header.lookup "x-pg-tenant" with
    | none =>
      cases ie <;> cases se <;> cases we <;> cases hp : up g.IpInfoAddress <;>
        cases ne <;> cases de <;> cases dec <;>
        simp [handleCount, getCount, SendSqsMessage, sendMessageInput, newContext,
          Context.GetHeader, Context.Get, Context.Set, hp, hl] <;>
        intro h _ <;> rw [h]
    | some v =>
      by_cases hv : v = ""
      · cases ie <;> cases se <;> cases we <;> cases hp : up g.IpInfoAddress <;>
          cases ne <;> cases de <;> cases dec <;>
          simp [handleCount, getCount, SendSqsMessage, sendMessageInput, newContext,
            Context.GetHeader, Context.Get, Context.Set, hp, hl, hv] <;>
          intro h _ <;> rw [h]
      · cases ie <;> cases se <;> cases we <;> cases hp : up g.IpInfoAddress <;>
          cases ne <;> cases de <;> cases dec <;>
          simp [handleCount, getCount, SendSqsMessage, sendMessageInput, newContext,
            Context.GetHeader, Context.Get, Context.Set, hp, hl, hv] <;>
          intro h _ <;> rw [h]
  · intro req ok
    cases ie <;> cases se <;> cases we <;> cases hp : up g.IpInfoAddress <;>
      cases ne <;> cases de <;> cases dec <;>
      simp [handleCount, getCount, SendSqsMessage, hp] <;>
      intro h _ <;> rw [h] <;> simp [List.lookup]
  · intro h
    simp only at h
    subst h
    cases se <;> cases we <;> cases hp : up g.IpInfoAddress <;>
      cases ne <;> cases de <;> cases dec <;>
      simp [handleCount, getCount, SendSqsMessage, hp]
  · rintro ⟨h1, h2, h3, h4, h5⟩
    simp only at h1 h2 h3 h4 h5
    subst h1 h2 h3 h5
    cases de <;> cases dec <;> simp [handleCount, getCount, SendSqsMessage, h4]


/-- Witness of C7: with `x-pg-tenant: t1` on the request, the queue message sent carries
the attribute and the lookup request the header. -/
theorem tenant_tag_forwarded_witness :
    (tenantInput.MessageAttributes =
      if (newContext "10.0.0.1" tenantHeader).GetHeader "x-pg-tenant" = "" then none
      else some [("x-pg-tenant",
        { DataType := "String",
          StringValue := (newContext "10.0.0.1" tenantHeader).GetHeader "x-pg-tenant" })]) ∧
    (tenantLookup.header
        = [("x-pg-tenant", (newContext "10.0.0.1" tenantHeader).GetHeader "x-pg-tenant")] ∧
      tenantLookup.header.lookup "x-pg-tenant"
        = some ((newContext "10.0.0.1" tenantHeader).GetHeader "x-pg-tenant")) ∧
    (∃ input, Event.sendMessage input (!(Env.ok 0 sampleInfo).sendMessageErr)
      ∈ (handleCount sampleGlobals "10.0.0.1" tenantHeader (Env.ok 0 sampleInfo)
          Store.empty).events) ∧
    (∃ req, Event.httpDo req (!(Env.ok 0 sampleInfo).doErr)
      ∈ (handleCount sampleGlobals "10.0.0.1" tenantHeader (Env.ok 0 sampleInfo)
          Store.empty).events) :=
  ⟨(tenant_tag_forwarded sampleGlobals "10.0.0.1" tenantHeader (Env.ok 0 sampleInfo)
      Store.empty).1 tenantInput true (by decide),
   (tenant_tag_forwarded sampleGlobals "10.0.0.1" tenantHeader (Env.ok 0 sampleInfo)
      Store.empty).2.1 tenantLookup true (by decide),
   (tenant_tag_forwarded sampleGlobals "10.0.0.1" tenantHeader (Env.ok 0 sampleInfo)
      Store.empty).2.2.1 rfl,
   (tenant_tag_forwarded sampleGlobals "10.0.0.1" tenantHeader (Env.ok 0 sampleInfo)
      Store.empty).2.2.2 (by decide)⟩

/-- C8: when the queue publish of a request returns an error, the outcome is the end of the
process: no response, no stream publish, no lookup step, and the process serves nothing
further. When the queue publish succeeds and the stream publish returns an error, the
outcome is the generic 500 response and the process goes on to serve the next requests. -/
theorem queue_failure_fatal_stream_failure_500 (g : Globals) (call : Call) (s : Store)
    (rest : List Call) :
    ((∃ input, Event.sendMessage input false ∈ (getCount g call.ctx call.env s).events) →
      (getCount g call.ctx call.env s).outcome = Outcome.fatal ∧
      (∀ r, (getCount g call.ctx call.env s).outcome ≠ Outcome.response r) ∧
      (∀ v ok, Event.writeMessages v ok ∉ (getCount g call.ctx call.env s).events) ∧
      (∀ raw ok, Event.urlParse raw ok ∉ (getCount g call.ctx call.env s).events) ∧
      (∀ req ok, Event.httpDo req ok ∉ (getCount g call.ctx call.env s).events) ∧
      serve g s (call :: rest) = []) ∧
    ((∃ input, Event.sendMessage input true ∈ (getCount g call.ctx call.env s).events) ∧
      (∃ v, Event.writeMessages v false ∈ (getCount g call.ctx call.env s).events) →
      (getCount g call.ctx call.env s).outcome = internalServerError ∧
      (getCount g call.ctx call.env s).outcome ≠ Outcome.fatal ∧
      serve g s (call :: rest)
        = { status := 500, body := [("error", HValue.str "Internal server error")] }
          :: serve g (getCount g call.ctx call.env s).store rest) := by
  obtain ⟨c, env⟩ := call
  refine ⟨?_, ?_⟩
  · intro h
    obtain ⟨hie, hse⟩ := sendMessage_failed g c env s h
    have hout : (getCount g c env s).outcome = Outcome.fatal := by
      rw [getCount_outcome]
      simp [hie, hse]
    obtain ⟨input0, hev⟩ := getCount_fatal_events g c env s hie hse
    refine ⟨hout, ?_, ?_, ?_, ?_, ?_⟩
    · intro r hr
      rw [hout] at hr
      exact Outcome.noConfusion hr
    · intro v ok
      rw [hev]
      simp
    · intro raw ok
      rw [hev]
      simp
    · intro req ok
      rw [hev]
      simp
    · simp only [serve, hout]
  · rintro ⟨_, h2⟩
    obtain ⟨hie, hse, hwe⟩ := writeMessages_failed g c env s h2
    have hout : (getCount g c env s).outcome = internalServerError := by
      rw [getCount_outcome]
      simp [hie, hse, hwe]
    refine ⟨hout, ?_, ?_⟩
    · rw [hout]
      exact fun hx => Outcome.noConfusion hx
    · simp only [serve, hout, internalServerError]

/-- Witness of C8: a failing queue publish ends the process before the next request is
served; a failing stream publish gives a 500 and the next request is served. -/
theorem queue_failure_fatal_stream_failure_500_witness :
    (serve sampleGlobals Store.empty
        [{ ctx := ctxA, env := envQueueFails }, { ctx := ctxB, env := Env.ok 1 none }] = []) ∧
    (serve sampleGlobals Store.empty
        [{ ctx := ctxA, env := envStreamFails }, { ctx := ctxB, env := Env.ok 1 none }]
      = { status := 500, body := [("error", HValue.str "Internal server error")] }
        :: serve sampleGlobals
            (getCount sampleGlobals ctxA envStreamFails Store.empty).store
            [{ ctx := ctxB, env := Env.ok 1 none }]) :=
  ⟨((queue_failure_fatal_stream_failure_500 sampleGlobals { ctx := ctxA, env := envQueueFails }
      Store.empty [{ ctx := ctxB, env := Env.ok 1 none }]).1
        ⟨plainInput, by decide⟩).2.2.2.2.2,
   ((queue_failure_fatal_stream_failure_500 sampleGlobals { ctx := ctxA, env := envStreamFails }
      Store.empty [{ ctx := ctxB, env := Env.ok 1 none }]).2
        ⟨⟨plainInput, by decide⟩,
         ⟨{ Ip := "10.0.0.1" }, by decide⟩⟩).2.2⟩

/-- C9, the code at the failing input: the increment succeeds and the set-expiry command
fails; `getCount` performs the queue publish, the stream publish and the lookup and answers
200 with count 1, not the generic 500. -/
theorem expire_failure_not_surfaced :
    Event.incr (RedisKey ++ "10.0.0.1") (some 1)
      ∈ (getCount sampleGlobals ctxA envExpireFails Store.empty).events ∧
    Event.expire (RedisKey ++ "10.0.0.1") RedisKeyTtl false
      ∈ (getCount sampleGlobals ctxA envExpireFails Store.empty).events ∧
    Event.sendMessage plainInput true
      ∈ (getCount sampleGlobals ctxA envExpireFails Store.empty).events ∧
    Event.writeMessages { Ip := "10.0.0.1" } true
      ∈ (getCount sampleGlobals ctxA envExpireFails Store.empty).events ∧
    Event.httpDo plainLookup true
      ∈ (getCount sampleGlobals ctxA envExpireFails Store.empty).events ∧
    (getCount sampleGlobals ctxA envExpireFails Store.empty).outcome = Outcome.response
      { status := 200,
        body := [("count", HValue.int 1), ("text", HValue.str "hello hi from"),
                 ("info", HValue.info sampleInfo)] } ∧
    (getCount sampleGlobals ctxA envExpireFails Store.empty).outcome ≠ internalServerError ∧
    (getCount sampleGlobals ctxA envExpireFails Store.empty).store (RedisKey ++ "10.0.0.1")
      = some { value := 1, expireAt := none } := by
  refine ⟨by decide, by decide, by decide, by decide, by decide, by decide, by decide, by decide⟩

/-- C10, the claim as written fails at port −1: the listen address is "0.0.0.0:-1", which is
"0.0.0.0:" followed by the port itself, although −1 is not between 0 and 32767. -/
theorem listen_address_nonnegative_range_counterexample :
    main (sampleStartup (-1)) = Boot.listening sampleGlobals "0.0.0.0:-1" ∧
    listenAddress (loadConfig (sampleViper (-1))).1
      = "0.0.0.0:" ++ Sprint (sampleViper (-1)).port ∧
    ¬ (0 ≤ (sampleViper (-1)).port ∧ (sampleViper (-1)).port ≤ 32767) := by
  refine ⟨by decide, by decide, by decide⟩

/-- C10 as amended: the address `main` listens on is "0.0.0.0:" followed by the decimal
rendering of the configured port `p` truncated to a signed 16-bit integer,
((p + 32768) mod 65536) − 32768; it is "0.0.0.0:" followed by `p` itself exactly when
−32768 ≤ p ≤ 32767; and for 32768 ≤ p ≤ 65535 it is "0.0.0.0:" followed by the negative
number p − 65536. -/
theorem listen_address_truncates_port (st : Startup) (g : Globals) (addr : String)
    (hboot : main st = Boot.listening g addr) :
    addr = "0.0.0.0:" ++ Sprint ((st.viper.port + 32768) % 65536 - 32768) ∧
    (addr = "0.0.0.0:" ++ Sprint st.viper.port
      ↔ (-32768 ≤ st.viper.port ∧ st.viper.port ≤ 32767)) ∧
    (32768 ≤ st.viper.port ∧ st.viper.port ≤ 65535 →
      addr = "0.0.0.0:" ++ Sprint (st.viper.port - 65536) ∧ st.viper.port - 65536 < 0) := by
  have haddr : addr = "0.0.0.0:" ++ Sprint ((st.viper.port + 32768) % 65536 - 32768) := by
    rw [(main_listening st g addr hboot).2, ← int16_eq]
    rfl
  refine ⟨haddr, ?_, ?_⟩
  · rw [haddr]
    constructor
    · intro h
      have := Sprint_injective _ _ (string_append_left_cancel _ _ _ h)
      omega
    · rintro ⟨hlo, hhi⟩
      have : (st.viper.port + 32768) % 65536 - 32768 = st.viper.port := by omega
      rw [this]
  · rintro ⟨hlo, hhi⟩
    have : (st.viper.port + 32768) % 65536 - 32768 = st.viper.port - 65536 := by omega
    rw [haddr, this]
    exact ⟨rfl, by omega⟩

/-- Witness of C10: port 40000 gives the listen address "0.0.0.0:-25536". -/
theorem listen_address_truncates_port_witness :
    "0.0.0.0:-25536" = "0.0.0.0:" ++ Sprint ((40000 : Int) - 65536) ∧
    (40000 : Int) - 65536 < 0 :=
  (listen_address_truncates_port (sampleStartup 40000) sampleGlobals "0.0.0.0:-25536"
    (by decide)).2.2 (by decide)

end IpVisitCounter
